import Mathlib

/-
  Verification development for the VerboAI interview platform.

  The definitions below are a shallow embedding of the two core subsystems:
  * the Session Budget Manager (backend/src/services/user.service.js):
    createUser, startInterviewSession, updateHeartbeat, endInterviewSession;
  * the Turn Orchestrator / interview handler
    (backend/src/socket/handlers/session.handler.js, streaming version):
    the violation tracker, the audio:chunk / interview:start event handlers,
    the transcript debouncer, and the sentence-streaming turn loop.

  Timestamps are modelled as integers (milliseconds since epoch), dates as the
  "YYYY-MM-DD" strings the code itself uses.  JavaScript truthiness tests on
  nullable fields are modelled explicitly (null/undefined and the number 0 and
  the empty string are falsy).  Firestore updates merge fields, which record
  updates model directly.
-/

namespace VerboAI

/-- JavaScript truthiness of a nullable string field: null/undefined and the
empty string are falsy. -/
def strTruthy : Option String → Bool
  | none => false
  | some s => s != ""

/-- JavaScript truthiness of a nullable numeric field: null/undefined and 0 are
falsy. -/
def intTruthy : Option Int → Bool
  | none => false
  | some t => t != 0

/-- JavaScript `x || d` on a nullable numeric field. -/
def jsOrInt : Option Int → Int → Int
  | none, d => d
  | some t, d => if t = 0 then d else t

/-- `Math.floor(a / b)` on integers: floor division. -/
def floorDiv (a b : Int) : Int := a.fdiv b

/-- `Math.ceil(a / b)` on integers: ceiling division. -/
def ceilDiv (a b : Int) : Int := -((-a).fdiv b)

/-- The budget-relevant fields of a `users/{uid}` Firestore document
(user.service.js `createUser` schema).  `currentSessionStartTime` is absent at
creation, which reads as undefined in the code; absence is modelled as
`none`. -/
structure UserDoc where
  dailyTimeLimitSec : Int
  dailyTimeUsedSec : Int
  lastResetDate : String
  activeSessionId : Option String
  currentSessionStartTime : Option Int
  lastHeartbeatAt : Option Int
deriving Repr, DecidableEq

/-- `user.dailyTimeLimitSec || 1800`: the effective daily limit (0 is falsy in
JavaScript, so a zero limit falls back to the 1800 default). -/
def effLimit (u : UserDoc) : Int :=
  if u.dailyTimeLimitSec = 0 then 1800 else u.dailyTimeLimitSec

/-- `createUser` (user.service.js): the budget-relevant defaults of a freshly
created user document.  `today` is `new Date().toISOString().split('T')[0]`. -/
def createUser (today : String) : UserDoc :=
  { dailyTimeLimitSec := 1800
    dailyTimeUsedSec := 0
    lastResetDate := today
    activeSessionId := none
    currentSessionStartTime := none
    lastHeartbeatAt := none }

/-- `startInterviewSession(uid)` (user.service.js).  The transactional body:
lazy daily reset, then reconciliation of a still-active previous session
(elapsed time added, capped at the effective limit), then the new session lock.
The budget checks of steps 3 and the re-check after reconciliation are
commented out in the source and therefore absent here.
`user.dailyTimeUsedSec || 0` is the identity on an integer field and is
written as the field itself. -/
def startInterviewSession : Option UserDoc → Int → String → Except String (UserDoc × String)
  | none, _, _ => Except.error "User not found"
  | some user, now, today =>
    let afterReset : Int × UserDoc :=
      if user.lastResetDate ≠ today then
        (0, { user with dailyTimeUsedSec := 0, lastResetDate := today })
      else (user.dailyTimeUsedSec, user)
    let afterReconcile : UserDoc :=
      if strTruthy user.activeSessionId then
        let sessionStart := jsOrInt user.currentSessionStartTime now
        let elapsedSeconds := floorDiv (now - sessionStart) 1000
        let newDailyUsed := min (afterReset.1 + elapsedSeconds) (effLimit user)
        { afterReset.2 with dailyTimeUsedSec := newDailyUsed }
      else afterReset.2
    let sessionId := "sess_" ++ toString now
    Except.ok ({ afterReconcile with
                   lastHeartbeatAt := some now
                   activeSessionId := some sessionId
                   currentSessionStartTime := some now }, sessionId)

/-- `endInterviewSession(uid)` (user.service.js).  Reading a null user throws a
TypeError (`user.activeSessionId` on null); with no active session the call is
a warn-and-return no-op; otherwise the server-computed duration is added with
an atomic increment and both lock fields are cleared. -/
def endInterviewSession : Option UserDoc → Int → Except String UserDoc
  | none, _ => Except.error "TypeError: Cannot read properties of null"
  | some user, now =>
    if strTruthy user.activeSessionId && intTruthy user.currentSessionStartTime then
      let durationMs := now - jsOrInt user.currentSessionStartTime 0
      let durationSec := ceilDiv durationMs 1000
      Except.ok { user with
                    dailyTimeUsedSec := user.dailyTimeUsedSec + durationSec
                    activeSessionId := none
                    currentSessionStartTime := none }
    else
      Except.ok user

/-- The heartbeat hard ceiling, `60 * 60 * 1000` ms (user.service.js). -/
def MAX_DURATION_MS : Int := 60 * 60 * 1000

/-- `updateHeartbeat(uid)` (user.service.js).  Returns the resulting document
state together with the thrown error, if any: a missing user or a falsy
`activeSessionId` returns untouched; a session older than the hard ceiling is
force-ended and the error propagates; otherwise only `lastHeartbeatAt` is
written. -/
def updateHeartbeat : Option UserDoc → Int → Option UserDoc × Option String
  | none, _ => (none, none)
  | some user, now =>
    if strTruthy user.activeSessionId then
      if intTruthy user.currentSessionStartTime
          && decide (now - jsOrInt user.currentSessionStartTime 0 > MAX_DURATION_MS) then
        match endInterviewSession (some user) now with
        | Except.ok u2 => (some u2, some "Session exceeded maximum duration")
        | Except.error e => (some user, some e)
      else
        (some { user with lastHeartbeatAt := some now }, none)
    else (some user, none)

/-- One Budget Manager operation, with the server clock (`Date.now()`) and,
for Start, the server date at the time of the call. -/
inductive BudgetOp where
  | start (now : Int) (today : String)
  | heartbeat (now : Int)
  | endSession (now : Int)
deriving Repr, DecidableEq

/-- The server clock at which an operation runs. -/
def opTime : BudgetOp → Int
  | BudgetOp.start now _ => now
  | BudgetOp.heartbeat now => now
  | BudgetOp.endSession now => now

/-- The resulting user-document state after one Budget Manager operation.
A thrown error leaves the document at whatever state the operation reached. -/
def applyOp (u? : Option UserDoc) : BudgetOp → Option UserDoc
  | BudgetOp.start now today =>
    match startInterviewSession u? now today with
    | Except.ok r => some r.1
    | Except.error _ => u?
  | BudgetOp.heartbeat now => (updateHeartbeat u? now).1
  | BudgetOp.endSession now =>
    match endInterviewSession u? now with
    | Except.ok u2 => some u2
    | Except.error _ => u?

/-- The document state after a sequence of Budget Manager operations. -/
def applyOps (u? : Option UserDoc) (ops : List BudgetOp) : Option UserDoc :=
  ops.foldl applyOp u?

/-- The exclusive-lock invariant: `activeSessionId` is null iff
`currentSessionStartTime` is null. -/
def lockOk (u : UserDoc) : Prop :=
  u.activeSessionId = none ↔ u.currentSessionStartTime = none

/-- `dailyTimeUsedSec` of an optional document (0 for a missing user). -/
def usedOf : Option UserDoc → Option Int
  | none => none
  | some u => some u.dailyTimeUsedSec

/-- A Start operation carries the same calendar date the document was last
reset on (the hypothesis of the within-one-day claims). -/
def opSameDay (op : BudgetOp) (u : UserDoc) : Prop :=
  ∀ n d, op = BudgetOp.start n d → d = u.lastResetDate

/-
  Turn Orchestrator / interview handler (session.handler.js, streaming
  version).  Per-connection mutable state and the event handlers, modelled as
  step functions returning the next state together with the list of performed
  effects (socket emissions, STT/TTS calls) in program order.
-/

/-- The per-connection orchestrator state variable (`let state = 'IDLE'`). -/
inductive TurnState where
  | IDLE
  | LISTENING
  | THINKING
  | SPEAKING
deriving Repr, DecidableEq

/-- Server-to-client socket events emitted by the handler. -/
inductive ServerEvent where
  | interviewStatus (state message : String)
  | userTranscript (text : String)
  | sessionWarning (message : String)
  | sessionEnd (reason message : String)
  | errorEvent (message : String)
deriving Repr, DecidableEq

/-- Observable actions of the handler: a socket emission, starting the STT
stream, forwarding one audio chunk to STT (`STTService.processAudio`),
an asynchronous TTS request (`sendAudioChunk`, fire-and-forget), or invoking
`handleUserTurnComplete` with a finished turn text. -/
inductive Effect where
  | emit (e : ServerEvent)
  | sttStartStream
  | sttForward (len : Nat)
  | ttsRequest (text : String)
  | handTurn (text : String)
deriving Repr, DecidableEq

/-- Per-connection handler state: the orchestrator state variable, the
anti-cheat violation counter and the conversation history (role, content). -/
structure ConnState where
  turnState : TurnState
  violationCount : Nat
  conversationHistory : List (String × String)
deriving Repr, DecidableEq

/-- `MAX_AUDIO_CHUNK_SIZE` (session.handler.js security constant). -/
def MAX_AUDIO_CHUNK_SIZE : Nat := 100000

/-- `MAX_TRANSCRIPT_LENGTH` (session.handler.js security constant). -/
def MAX_TRANSCRIPT_LENGTH : Nat := 1000

/-- The scripted greeting (`GREETING_TEXT`). -/
def GREETING_TEXT : String :=
  "Hello, I am Verbo-AI, your technical interviewer for today\x27s session. What topics have you prepared?"

/-- The `interview:start` handler: push the greeting into the history, pass
through SPEAKING while the greeting audio is requested asynchronously, then
switch to LISTENING and open the STT stream.  The handler has no guard on the
current state.  (The debouncer variables it initialises are modelled
separately by `DebounceState`.) -/
def onInterviewStart (c : ConnState) : ConnState × List Effect :=
  let c1 := { c with conversationHistory := c.conversationHistory ++ [("assistant", GREETING_TEXT)] }
  ({ c1 with turnState := TurnState.LISTENING },
   [Effect.emit (ServerEvent.interviewStatus "SPEAKING" "Initializing..."),
    Effect.ttsRequest GREETING_TEXT,
    Effect.sttStartStream,
    Effect.emit (ServerEvent.interviewStatus "LISTENING" "I am listening...")])

/-- The synchronous return value of `STTService.processAudio` as seen by the
`audio:chunk` handler. -/
inductive SttResult where
  | normal
  | silenceTimeout
  | maxDurationExceeded
deriving Repr, DecidableEq

/-- The `audio:chunk` handler: chunks are dropped while the state is not
LISTENING and when they exceed `MAX_AUDIO_CHUNK_SIZE`; otherwise the chunk is
forwarded to STT and the silence / max-duration signals only produce status
notices (the state is left unchanged in both cases). -/
def onAudioChunk (c : ConnState) (len : Nat) (r : SttResult) : ConnState × List Effect :=
  if c.turnState ≠ TurnState.LISTENING then (c, [])
  else if len > MAX_AUDIO_CHUNK_SIZE then (c, [])
  else
    match r with
    | SttResult.silenceTimeout =>
      (c, [Effect.sttForward len,
           Effect.emit (ServerEvent.interviewStatus "LISTENING"
             "I am still listening... Take your time.")])
    | SttResult.maxDurationExceeded =>
      (c, [Effect.sttForward len,
           Effect.emit (ServerEvent.interviewStatus "LISTENING"
             "That was a long response! Let me process what you said...")])
    | SttResult.normal => (c, [Effect.sttForward len])

/-- First-strike warning message of the violation tracker. -/
def WARNING_MESSAGE : String :=
  "⚠️ Warning: Tab switching is PROHIBITED. One more violation will terminate the interview."

/-- Termination message of the violation tracker. -/
def TERMINATION_MESSAGE : String :=
  "🚫 Interview Terminated. Integrity violation detected."

/-- The `session:violation` handler: increment the counter; on the first
violation emit a warning (state untouched); from the second on force the state
to IDLE and emit a `session:end` event with reason `violation`.  The handler
contains no call into the user service. -/
def onViolation (c : ConnState) : ConnState × List ServerEvent :=
  let count := c.violationCount + 1
  if count = 1 then
    ({ c with violationCount := count }, [ServerEvent.sessionWarning WARNING_MESSAGE])
  else if count ≥ 2 then
    ({ c with violationCount := count, turnState := TurnState.IDLE },
     [ServerEvent.sessionEnd "violation" TERMINATION_MESSAGE])
  else
    ({ c with violationCount := count }, [])

/-- The `session:violation` handler viewed on the combined state of the
connection and the user document: the source handler performs no Budget
Manager call (its only comment on the matter reads "Ideally, we would also
flag the user in the database here"), so the document component is
untouched. -/
def onViolationSys (s : ConnState × Option UserDoc) : (ConnState × Option UserDoc) × List ServerEvent :=
  ((( onViolation s.1).1, s.2), (onViolation s.1).2)

/-
  Transcript debouncer (the STTService.startStream callback installed by
  interview:start, together with its setTimeout callback).
-/

/-- The `[.?!]` character class. -/
def isPunctChar (ch : Char) : Bool := ch == '.' || ch == '?' || ch == '!'

/-- The `\s` character class (ASCII fragment). -/
def isWsChar (ch : Char) : Bool := ch == ' ' || ch == '\t' || ch == '\n' || ch == '\r'

/-- JavaScript `trim()` on character lists (ASCII whitespace). -/
def trimChars (s : List Char) : List Char :=
  ((s.dropWhile isWsChar).reverse.dropWhile isWsChar).reverse

/-- JavaScript `trim()` on strings, via the character-list model. -/
def jsTrim (s : String) : String := String.mk (trimChars s.toList)

/-- One transcript fragment delivered by the STT stream. -/
structure Fragment where
  text : String
  isFinal : Bool
deriving Repr, DecidableEq

/-- The debouncer's per-connection variables: the shared orchestrator state
variable, `transcriptBuffer`, and the pending completion timer (its wait in
milliseconds; `none` when no timer is pending). -/
structure DebounceState where
  turnState : TurnState
  transcriptBuffer : String
  transcriptTimer : Option Nat
deriving Repr, DecidableEq

/-- `['.', '?', '!'].includes(transcriptBuffer.trim().slice(-1))`. -/
def endsInSentencePunct (s : String) : Bool :=
  match (jsTrim s).toList.getLast? with
  | some ch => ch == '.' || ch == '?' || ch == '!'
  | none => false

/-- `transcriptBuffer += (transcriptBuffer ? ' ' : '') + text.trim()`. -/
def appendFinal (buffer t : String) : String :=
  buffer ++ (if buffer ≠ "" then " " else "") ++ jsTrim t

/-- The STT callback: fragments are ignored unless LISTENING; empty and
whitespace-only texts are ignored; any other fragment cancels the pending
timer, appends to the buffer when final, and restarts the timer with the
dynamic wait (1000 ms after sentence-final punctuation, 2500 ms otherwise). -/
def onTranscript (d : DebounceState) (f : Fragment) : DebounceState :=
  if d.turnState ≠ TurnState.LISTENING then d
  else if jsTrim f.text = "" then d
  else
    let buffer := if f.isFinal then appendFinal d.transcriptBuffer f.text else d.transcriptBuffer
    let waitTime := if endsInSentencePunct buffer then 1000 else 2500
    { d with transcriptBuffer := buffer, transcriptTimer := some waitTime }

/-- `safeTranscript.substring(0, MAX_TRANSCRIPT_LENGTH) + '...'` when over the
limit. -/
def truncateTranscript (s : String) : String :=
  if s.length > MAX_TRANSCRIPT_LENGTH then s.take MAX_TRANSCRIPT_LENGTH ++ "..." else s

/-- The completion-timer callback: with a whitespace-only buffer it does
nothing; otherwise it drains the buffer, truncates, and invokes
`handleUserTurnComplete`, whose first synchronous action sets the state to
THINKING. -/
def onTimerFire (d : DebounceState) : DebounceState × List Effect :=
  if jsTrim d.transcriptBuffer = "" then ({ d with transcriptTimer := none }, [])
  else
    let safeTranscript := truncateTranscript d.transcriptBuffer
    ({ d with transcriptBuffer := "", transcriptTimer := none, turnState := TurnState.THINKING },
     [Effect.handTurn safeTranscript])

/-
  Sentence-streaming turn loop (handleUserTurnComplete, streaming version):
  the `for await` loop over the LLM token stream, with the regex
  /([.?!]+)(\s+|$)/ sentence splitter and sendAudioChunk.  Text is modelled as
  List Char; the \s class is modelled by the ASCII whitespace characters.
  TTS is an abstract function (provider failures are out of scope here), and
  the interview:status emissions of the loop are not part of this model, which
  collects the audio:chunk events (text, audio) in emission order.
-/

/-- Length of the maximal prefix run satisfying `p`. -/
def takeRun (p : Char → Bool) : List Char → Nat
  | [] => 0
  | ch :: cs => if p ch then takeRun p cs + 1 else 0

/-- `sentenceBuffer.match(/([.?!]+)(\s+|$)/)`: the end position
`match.index + match[0].length` of the leftmost match, scanning start
positions left to right; at a punctuation position the greedy run must be
followed by whitespace (consumed greedily) or the end of the string. -/
def findSentenceEndAux : List Char → Nat → Option Nat
  | [], _ => none
  | ch :: cs, i =>
    if isPunctChar ch then
      let prun := takeRun isPunctChar (ch :: cs)
      let rest := (ch :: cs).drop prun
      match rest with
      | [] => some (i + prun)
      | r :: _ =>
        if isWsChar r then some (i + prun + takeRun isWsChar rest)
        else findSentenceEndAux cs (i + 1)
    else findSentenceEndAux cs (i + 1)

/-- The leftmost sentence-boundary match end in a buffer. -/
def findSentenceEnd (s : List Char) : Option Nat := findSentenceEndAux s 0

/-- One application of the splitter: the sentence
(`substring(0, index + match[0].length)`) and the remaining buffer. -/
def sentenceSplit (s : List Char) : Option (List Char × List Char) :=
  match findSentenceEnd s with
  | none => none
  | some e => some (s.take e, s.drop e)

/-- The `for await (const chunk of stream)` body: each arriving chunk is
appended to `sentenceBuffer`; at most one sentence match is then extracted and
(when its trim is non-empty) sent to TTS and emitted, sequentially awaited.
Returns the emitted (text, audio) events in order and the final buffer. -/
def streamLoop {α : Type} (tts : List Char → α) :
    List (List Char) → List Char → List (List Char × α) × List Char
  | [], buf => ([], buf)
  | chunk :: rest, buf =>
    let buf1 := buf ++ chunk
    match sentenceSplit buf1 with
    | none => streamLoop tts rest buf1
    | some (sentence, remaining) =>
      let tail := streamLoop tts rest remaining
      if trimChars sentence = [] then tail
      else ((trimChars sentence, tts (trimChars sentence)) :: tail.1, tail.2)

/-- The audio:chunk events of one streamed LLM response: the loop over the
chunks followed by the flush of the remaining buffer
(`if (sentenceBuffer.trim()) await sendAudioChunk(sentenceBuffer.trim())`). -/
def audioEvents {α : Type} (tts : List Char → α) (chunks : List (List Char)) :
    List (List Char × α) :=
  let r := streamLoop tts chunks []
  if trimChars r.2 = [] then r.1
  else r.1 ++ [(trimChars r.2, tts (trimChars r.2))]

/-- Modelled from the spec: the sentences of a complete response under the
spec\x27s boundary definition (punctuation in `.?!` followed by whitespace or
end-of-stream), applied repeatedly to the whole stream; a trailing
unpunctuated remainder is the last sentence.  Used only to compare the
emitted event count against the spec\x27s N. -/
def sentencesSpecAux : Nat → List Char → List (List Char)
  | 0, s => if trimChars s = [] then [] else [trimChars s]
  | fuel + 1, s =>
    match sentenceSplit s with
    | none => if trimChars s = [] then [] else [trimChars s]
    | some (sentence, remaining) =>
      if trimChars sentence = [] then sentencesSpecAux fuel remaining
      else trimChars sentence :: sentencesSpecAux fuel remaining

/-- The spec-side sentence list of a complete response. -/
def sentencesSpec (s : List Char) : List (List Char) := sentencesSpecAux s.length s

/-- A user document holding an active session lock, used in concrete
scenarios below. -/
def lockedUser : UserDoc :=
  { dailyTimeLimitSec := 1800
    dailyTimeUsedSec := 42
    lastResetDate := "2026-10-12"
    activeSessionId := some "sess_1000"
    currentSessionStartTime := some 1000
    lastHeartbeatAt := some 1000 }

/-- A fresh connection state in LISTENING with no violations. -/
def freshConn : ConnState :=
  { turnState := TurnState.LISTENING, violationCount := 0, conversationHistory := [] }

/-- A LISTENING connection that already has one recorded violation. -/
def strikeConn : ConnState :=
  { turnState := TurnState.LISTENING, violationCount := 1, conversationHistory := [] }

/-- A connection after a forced termination: IDLE with two violations. -/
def idleConn : ConnState :=
  { turnState := TurnState.IDLE, violationCount := 2, conversationHistory := [] }

/-- A listening debouncer state with a punctuated buffer and a pending
timer. -/
def sampleDebounce : DebounceState :=
  { turnState := TurnState.LISTENING, transcriptBuffer := "Hello there.",
    transcriptTimer := some 1000 }

/-- A final sample fragment. -/
def sampleFragment : Fragment := { text := "ok", isFinal := true }

/-
  Theorems for the claims.
-/

/-- Claim C1, counterexample: a user whose daily budget is exhausted on the
current day (`dailyTimeUsedSec = dailyTimeLimitSec = 1800`, no reset pending)
calls Start, and the operation succeeds: a session id is returned and the
session lock is installed — it does not fail with a descriptive error as the
claim states. -/
theorem C1_counterexample :
    startInterviewSession
      (some { dailyTimeLimitSec := 1800, dailyTimeUsedSec := 1800,
              lastResetDate := "2026-10-12", activeSessionId := none,
              currentSessionStartTime := none, lastHeartbeatAt := none })
      5000 "2026-10-12"
    = Except.ok ({ dailyTimeLimitSec := 1800, dailyTimeUsedSec := 1800,
                   lastResetDate := "2026-10-12",
                   activeSessionId := some "sess_5000",
                   currentSessionStartTime := some 5000,
                   lastHeartbeatAt := some 5000 }, "sess_5000") := by
  rfl

/-- Claim C1, amended: Start never fails because of an exhausted budget — the
budget checks are commented out in the source.  For every existing user,
whatever the budget state, Start succeeds, returns a fresh session id and
installs the session lock; Start fails only when the user document does not
exist. -/
theorem C1_start_ignores_budget :
    (∀ (u : UserDoc) (now : Int) (today : String),
      ∃ u' : UserDoc,
        startInterviewSession (some u) now today
          = Except.ok (u', "sess_" ++ toString now)
        ∧ u'.activeSessionId = some ("sess_" ++ toString now)
        ∧ u'.currentSessionStartTime = some now)
    ∧ ∀ (now : Int) (today : String),
        startInterviewSession none now today = Except.error "User not found" := by
  refine ⟨fun u now today => ⟨_, rfl, rfl, rfl⟩, fun now today => rfl⟩

/-- Claim C9: calling End for an existing user with no active session
(either lock field null) is a no-op: it does not throw and returns the
document unchanged. -/
theorem C9_idempotent_end (u : UserDoc) (now : Int)
    (h : u.activeSessionId = none ∨ u.currentSessionStartTime = none) :
    endInterviewSession (some u) now = Except.ok u := by
  rcases h with h | h <;> simp [endInterviewSession, strTruthy, intTruthy, h]

/-- Claim C9, witness: End on a freshly created user (no session) at an
arbitrary time returns the document unchanged. -/
theorem C9_idempotent_end_witness :
    endInterviewSession (some (createUser "2026-10-12")) 99999
      = Except.ok (createUser "2026-10-12") :=
  C9_idempotent_end (createUser "2026-10-12") 99999 (Or.inl rfl)

/-- Claim C10: Heartbeat for a missing user, or for a user without an active
session, returns without error and without modifying the document — no
`lastHeartbeatAt` write and no hard-ceiling check. -/
theorem C10_heartbeat_noop (u? : Option UserDoc) (now : Int)
    (h : u? = none ∨ ∃ u, u? = some u ∧ u.activeSessionId = none) :
    updateHeartbeat u? now = (u?, none) := by
  rcases h with rfl | ⟨u, rfl, ha⟩
  · rfl
  · simp [updateHeartbeat, strTruthy, ha]

/-- Claim C10, witness: a heartbeat for a user with no active session but a
stale `currentSessionStartTime` far beyond the hard ceiling still returns
untouched and error-free — the ceiling check is not even reached. -/
theorem C10_heartbeat_noop_witness :
    updateHeartbeat
      (some { dailyTimeLimitSec := 1800, dailyTimeUsedSec := 0,
              lastResetDate := "2026-10-12", activeSessionId := none,
              currentSessionStartTime := some 1, lastHeartbeatAt := none })
      10000000000
    = (some { dailyTimeLimitSec := 1800, dailyTimeUsedSec := 0,
              lastResetDate := "2026-10-12", activeSessionId := none,
              currentSessionStartTime := some 1, lastHeartbeatAt := none }, none) :=
  C10_heartbeat_noop
    (some { dailyTimeLimitSec := 1800, dailyTimeUsedSec := 0,
            lastResetDate := "2026-10-12", activeSessionId := none,
            currentSessionStartTime := some 1, lastHeartbeatAt := none })
    10000000000
    (Or.inr ⟨_, rfl, rfl⟩)

/-- Claim C5, counterexample: a second violation on a connection whose user
holds an active session forces the orchestrator to IDLE and emits the
termination event, but leaves the user document untouched: the Budget
Manager's End operation is not invoked, so the elapsed time is not charged
and the session lock is not released — contrary to the claim. -/
theorem C5_counterexample :
    (onViolationSys (strikeConn, some lockedUser)).1.1.turnState = TurnState.IDLE
    ∧ (onViolationSys (strikeConn, some lockedUser)).1.2 = some lockedUser
    ∧ lockedUser.activeSessionId = some "sess_1000"
    ∧ lockedUser.dailyTimeUsedSec = 42 := by
  exact ⟨rfl, rfl, rfl, rfl⟩

/-- Claim C5, amended: the first violation emits exactly one warning event and
leaves the orchestrator state unchanged; the second and any subsequent
violation forces the state to IDLE and emits a `session:end` event with
reason code `violation`.  The Budget Manager's End operation is not invoked
on this path: the user document is unchanged in every case. -/
theorem C5_two_strike (c : ConnState) (u : Option UserDoc) :
    (c.violationCount = 0 →
      onViolationSys (c, u)
        = (({ c with violationCount := 1 }, u),
           [ServerEvent.sessionWarning WARNING_MESSAGE]))
    ∧ (1 ≤ c.violationCount →
      onViolationSys (c, u)
        = (({ c with violationCount := c.violationCount + 1, turnState := TurnState.IDLE }, u),
           [ServerEvent.sessionEnd "violation" TERMINATION_MESSAGE])) := by
  constructor
  · intro h0
    simp [onViolationSys, onViolation, h0]
  · intro h1
    have hne : ¬ (c.violationCount + 1 = 1) := by omega
    have hge : 2 ≤ c.violationCount + 1 := by omega
    simp [onViolationSys, onViolation, hne, hge]

/-- Claim C5, witness: both strikes at concrete states — a first violation on
a fresh connection warns without a state change, a second violation on a
one-strike connection terminates. -/
theorem C5_two_strike_witness :
    (onViolationSys (freshConn, some lockedUser)
      = ((strikeConn, some lockedUser),
         [ServerEvent.sessionWarning WARNING_MESSAGE]))
    ∧ (onViolationSys (strikeConn, some lockedUser)
        = ((idleConn, some lockedUser),
           [ServerEvent.sessionEnd "violation" TERMINATION_MESSAGE])) :=
  ⟨(C5_two_strike freshConn (some lockedUser)).1 rfl,
   (C5_two_strike strikeConn (some lockedUser)).2 (by decide)⟩

/-- Claim C6, counterexample: after a forced termination the connection is in
IDLE, but a subsequent `interview:start` event — which has no state guard —
returns the state to LISTENING, after which a small audio chunk is forwarded
to STT again.  Termination is therefore not terminal against a client that
re-sends `interview:start`. -/
theorem C6_counterexample :
    ((onInterviewStart idleConn).1.turnState = TurnState.LISTENING)
    ∧ (onAudioChunk (onInterviewStart idleConn).1 100 SttResult.normal).2
      = [Effect.sttForward 100] := by
  exact ⟨rfl, rfl⟩

/-- Claim C6, amended: while the orchestrator state is IDLE (in particular
after a forced termination), every `audio:chunk` event is ignored — no chunk
is forwarded to STT and no other effect occurs — but this holds only as long
as no further `interview:start` arrives, since that handler is unguarded and
resets the state to LISTENING. -/
theorem C6_idle_blocks_audio (c : ConnState) (len : Nat) (r : SttResult)
    (h : c.turnState = TurnState.IDLE) :
    onAudioChunk c len r = (c, []) := by
  simp [onAudioChunk, h]

/-- Claim C6, witness: a terminated connection drops a normal-sized chunk. -/
theorem C6_idle_blocks_audio_witness :
    onAudioChunk idleConn 100 SttResult.normal = (idleConn, []) :=
  C6_idle_blocks_audio idleConn 100 SttResult.normal rfl

/-- Claim C7: the transcript debouncer, while listening — every non-empty
fragment (interim or final) replaces any pending timer with a fresh one whose
wait is 1000 ms exactly when the buffered text then ends in `.`, `?` or `!`
and 2500 ms otherwise; only final fragments are appended to the buffer; the
timer callback hands the turn to THINKING (draining the buffer first) exactly
when the buffer is non-empty, and otherwise does nothing. -/
theorem C7_transcript_debouncer (d e : DebounceState) (f : Fragment)
    (hL : d.turnState = TurnState.LISTENING) (hne : jsTrim f.text ≠ "") :
    ((onTranscript d f).transcriptTimer
       = some (if endsInSentencePunct (onTranscript d f).transcriptBuffer
               then 1000 else 2500))
    ∧ ((onTranscript d f).transcriptBuffer
       = if f.isFinal then appendFinal d.transcriptBuffer f.text
         else d.transcriptBuffer)
    ∧ (jsTrim e.transcriptBuffer ≠ "" →
        (onTimerFire e).1.turnState = TurnState.THINKING
        ∧ (onTimerFire e).1.transcriptBuffer = ""
        ∧ (onTimerFire e).2 = [Effect.handTurn (truncateTranscript e.transcriptBuffer)])
    ∧ (jsTrim e.transcriptBuffer = "" →
        (onTimerFire e).1.turnState = e.turnState ∧ (onTimerFire e).2 = []) := by
  refine ⟨?_, ?_, fun hb => ?_, fun hb => ?_⟩
  · simp [onTranscript, hL, hne]
  · simp [onTranscript, hL, hne]
  · simp [onTimerFire, hb]
  · simp [onTimerFire, hb]

/-- Claim C7, witness: a final fragment arriving on a punctuated buffer
appends and restarts the timer; firing on a non-empty buffer drains it into
the THINKING handoff. -/
theorem C7_transcript_debouncer_witness :
    ((onTranscript sampleDebounce sampleFragment).transcriptTimer
       = some (if endsInSentencePunct (onTranscript sampleDebounce sampleFragment).transcriptBuffer
               then 1000 else 2500))
    ∧ ((onTimerFire sampleDebounce).1.turnState = TurnState.THINKING
        ∧ (onTimerFire sampleDebounce).1.transcriptBuffer = ""
        ∧ (onTimerFire sampleDebounce).2
            = [Effect.handTurn (truncateTranscript sampleDebounce.transcriptBuffer)]) :=
  ⟨(C7_transcript_debouncer sampleDebounce sampleDebounce sampleFragment rfl (by decide)).1,
   (C7_transcript_debouncer sampleDebounce sampleDebounce sampleFragment rfl (by decide)).2.2.1
     (by decide)⟩

/-- Claim C4, counterexample: End on a user whose `lastResetDate` is stale
(any current date differs from `2026-10-11`) performs its time accounting on
the stale counter — 100 s becomes 150 s — without zeroing it and without
touching `lastResetDate`; the operation does not even read the current date.
The claim requires the counter to be reset to 0 before any accounting in
every Budget Manager operation. -/
theorem C4_counterexample :
    endInterviewSession
      (some { dailyTimeLimitSec := 1800, dailyTimeUsedSec := 100,
              lastResetDate := "2026-10-11", activeSessionId := some "sess_1000",
              currentSessionStartTime := some 1000, lastHeartbeatAt := some 1000 })
      51000
    = Except.ok { dailyTimeLimitSec := 1800, dailyTimeUsedSec := 150,
                  lastResetDate := "2026-10-11", activeSessionId := none,
                  currentSessionStartTime := none, lastHeartbeatAt := some 1000 }
    ∧ (150 : Int) ≠ 0 ∧ "2026-10-11" ≠ "2026-10-12" := by
  exact ⟨rfl, by norm_num, by decide⟩

/-- Claim C4, amended: only Start performs the lazy daily reset — when
`lastResetDate` differs from today it sets `lastResetDate` to today and
computes the day's usage from a zero base before reconciliation; Heartbeat
and End never consult or update `lastResetDate` (End increments the counter
and Heartbeat writes the liveness timestamp as-is). -/
theorem C4_reset_only_at_start (u : UserDoc) (now : Int) (today : String) :
    (u.lastResetDate ≠ today →
      ∀ u' sid, startInterviewSession (some u) now today = Except.ok (u', sid) →
        u'.lastResetDate = today
        ∧ u'.dailyTimeUsedSec
            = (if strTruthy u.activeSessionId then
                 min (floorDiv (now - jsOrInt u.currentSessionStartTime now) 1000)
                   (effLimit u)
               else 0))
    ∧ (∀ u', endInterviewSession (some u) now = Except.ok u' →
        u'.lastResetDate = u.lastResetDate)
    ∧ (∀ u', (updateHeartbeat (some u) now).1 = some u' →
        u'.lastResetDate = u.lastResetDate) := by
  refine ⟨fun hr u' sid h => ?_, fun u' h => ?_, fun u' h => ?_⟩
  · simp [startInterviewSession, hr] at h
    obtain ⟨h1, h2⟩ := h
    subst h1
    by_cases ha : strTruthy u.activeSessionId <;> simp [ha]
  · simp [endInterviewSession] at h
    split at h <;> (cases h; rfl)
  · simp [updateHeartbeat, endInterviewSession] at h
    split at h
    · split at h
      · simp_all
        cases h
        rfl
      · cases h
        rfl
    · cases h
      rfl

/-- Claim C4, witness: a Start on a stale date resets and accounts from zero;
an End and a Heartbeat on the same document leave `lastResetDate` alone. -/
theorem C4_reset_only_at_start_witness :
    (({ dailyTimeLimitSec := 1800, dailyTimeUsedSec := 60,
        lastResetDate := "2026-10-13", activeSessionId := some "sess_61000",
        currentSessionStartTime := some 61000,
        lastHeartbeatAt := some 61000 } : UserDoc).lastResetDate = "2026-10-13"
      ∧ ({ dailyTimeLimitSec := 1800, dailyTimeUsedSec := 60,
           lastResetDate := "2026-10-13", activeSessionId := some "sess_61000",
           currentSessionStartTime := some 61000,
           lastHeartbeatAt := some 61000 } : UserDoc).dailyTimeUsedSec
          = (if strTruthy lockedUser.activeSessionId then
               min (floorDiv (61000 - jsOrInt lockedUser.currentSessionStartTime 61000) 1000)
                 (effLimit lockedUser)
             else 0))
    ∧ (({ dailyTimeLimitSec := 1800, dailyTimeUsedSec := 102,
          lastResetDate := "2026-10-12", activeSessionId := none,
          currentSessionStartTime := none,
          lastHeartbeatAt := some 1000 } : UserDoc).lastResetDate
        = lockedUser.lastResetDate)
    ∧ (({ dailyTimeLimitSec := 1800, dailyTimeUsedSec := 42,
          lastResetDate := "2026-10-12", activeSessionId := some "sess_1000",
          currentSessionStartTime := some 1000,
          lastHeartbeatAt := some 61000 } : UserDoc).lastResetDate
        = lockedUser.lastResetDate) :=
  ⟨(C4_reset_only_at_start lockedUser 61000 "2026-10-13").1 (by decide)
      { dailyTimeLimitSec := 1800, dailyTimeUsedSec := 60,
        lastResetDate := "2026-10-13", activeSessionId := some "sess_61000",
        currentSessionStartTime := some 61000, lastHeartbeatAt := some 61000 }
      "sess_61000" rfl,
   (C4_reset_only_at_start lockedUser 61000 "2026-10-13").2.1
      { dailyTimeLimitSec := 1800, dailyTimeUsedSec := 102,
        lastResetDate := "2026-10-12", activeSessionId := none,
        currentSessionStartTime := none, lastHeartbeatAt := some 1000 } rfl,
   (C4_reset_only_at_start lockedUser 61000 "2026-10-13").2.2
      { dailyTimeLimitSec := 1800, dailyTimeUsedSec := 42,
        lastResetDate := "2026-10-12", activeSessionId := some "sess_1000",
        currentSessionStartTime := some 1000, lastHeartbeatAt := some 61000 } rfl⟩

/-- Floor division by 1000 preserves non-negativity. -/
theorem floorDiv_nonneg1000 {a : Int} (h : 0 ≤ a) : 0 ≤ floorDiv a 1000 := by
  unfold floorDiv
  exact Int.fdiv_nonneg h (by norm_num)

/-- Ceiling division by 1000 preserves non-negativity. -/
theorem ceilDiv_nonneg1000 {a : Int} (h : 0 ≤ a) : 0 ≤ ceilDiv a 1000 := by
  unfold ceilDiv
  have h1 : (-a).fdiv 1000 = (-a) / 1000 := Int.fdiv_eq_ediv _ (by norm_num)
  have h2 : (-a) / 1000 ≤ 0 / 1000 := Int.ediv_le_ediv (by norm_num) (by omega)
  rw [h1]
  omega

/-- The effective limit of a document with a non-negative stored limit is
non-negative. -/
theorem effLimit_nonneg {u : UserDoc} (h : 0 ≤ u.dailyTimeLimitSec) : 0 ≤ effLimit u := by
  unfold effLimit
  split <;> omega

/-- Claim C2: user creation establishes the exclusive-lock invariant
(`activeSessionId` null iff `currentSessionStartTime` null), and every Budget
Manager operation — Start, Heartbeat, End — preserves it. -/
theorem C2_lock_invariant (today : String) (u : UserDoc) (op : BudgetOp) (h : lockOk u) :
    lockOk (createUser today)
    ∧ ∀ u', applyOp (some u) op = some u' → lockOk u' := by
  refine ⟨by simp [createUser, lockOk], fun u' hu' => ?_⟩
  cases op with
  | start now d =>
    simp [applyOp, startInterviewSession] at hu'
    subst hu'
    simp [lockOk]
  | heartbeat now =>
    simp [applyOp, updateHeartbeat, endInterviewSession] at hu'
    split at hu'
    · split at hu'
      · simp_all
        cases hu'
        simp [lockOk]
      · cases hu'
        simpa [lockOk] using h
    · cases hu'
      exact h
  | endSession now =>
    by_cases hc : strTruthy u.activeSessionId = true ∧ intTruthy u.currentSessionStartTime = true
    · simp [applyOp, endInterviewSession, hc] at hu'
      cases hu'
      simp [lockOk]
    · simp [applyOp, endInterviewSession, hc] at hu'
      cases hu'
      exact h

/-- Claim C2, witness: creation establishes the invariant, and ending the
locked sample session preserves it (both lock fields cleared together). -/
theorem C2_lock_invariant_witness :
    lockOk (createUser "2026-10-12")
    ∧ lockOk { dailyTimeLimitSec := 1800, dailyTimeUsedSec := 102,
               lastResetDate := "2026-10-12", activeSessionId := none,
               currentSessionStartTime := none, lastHeartbeatAt := some 1000 } :=
  ⟨(C2_lock_invariant "2026-10-12" lockedUser (BudgetOp.endSession 61000)
      (by simp [lockedUser, lockOk])).1,
   (C2_lock_invariant "2026-10-12" lockedUser (BudgetOp.endSession 61000)
      (by simp [lockedUser, lockOk])).2
     { dailyTimeLimitSec := 1800, dailyTimeUsedSec := 102,
       lastResetDate := "2026-10-12", activeSessionId := none,
       currentSessionStartTime := none, lastHeartbeatAt := some 1000 } rfl⟩

/-- Claim C3, counterexample: a same-day sequence of Budget Manager
operations under which `dailyTimeUsedSec` decreases.  Start at t=1 s; End at
t=2001 s charges 2000 s (the atomic increment is not capped, so the counter
exceeds the 1800 s limit); Start at t=2002 s opens a new session; a further
Start at t=2012 s reconciles the still-active session and writes
`min(2000 + 10, 1800) = 1800`, strictly below the previous value 2000 — so
the claimed monotonicity fails within one calendar day. -/
theorem C3_counterexample :
    usedOf (applyOps (some (createUser "2026-10-12"))
      [BudgetOp.start 1000 "2026-10-12", BudgetOp.endSession 2001000,
       BudgetOp.start 2002000 "2026-10-12"]) = some 2000
    ∧ usedOf (applyOps (some (createUser "2026-10-12"))
        [BudgetOp.start 1000 "2026-10-12", BudgetOp.endSession 2001000,
         BudgetOp.start 2002000 "2026-10-12", BudgetOp.start 2012000 "2026-10-12"]) = some 1800
    ∧ (1800 : Int) < 2000 := by
  exact ⟨by decide, by decide, by decide⟩

/-- Claim C3, amended: with a non-negative counter and stored limit, any
same-day Budget Manager operation at a time not before the session start
keeps `dailyTimeUsedSec` non-negative, and does not decrease it provided it
does not currently exceed the effective daily limit.  (When a prior
uncapped End has pushed the counter above the limit, the cap in Start's
reconciliation can decrease it back to the limit, as the counterexample
shows.) -/
theorem C3_used_step (u : UserDoc) (op : BudgetOp)
    (hnn : 0 ≤ u.dailyTimeUsedSec)
    (hlim : 0 ≤ u.dailyTimeLimitSec)
    (hst : ∀ t, u.currentSessionStartTime = some t → t ≤ opTime op)
    (hday : opSameDay op u) :
    ∀ u', applyOp (some u) op = some u' →
      0 ≤ u'.dailyTimeUsedSec
      ∧ (u.dailyTimeUsedSec ≤ effLimit u → u.dailyTimeUsedSec ≤ u'.dailyTimeUsedSec) := by
  intro u' hu'
  cases op with
  | start now d =>
    have hd : d = u.lastResetDate := hday now d rfl
    subst hd
    have he : 0 ≤ floorDiv (now - jsOrInt u.currentSessionStartTime now) 1000 := by
      rcases hcs : u.currentSessionStartTime with _ | t
      · simp [jsOrInt, floorDiv]
      · have hle := hst t hcs
        simp [opTime] at hle
        by_cases ht : t = 0
        · simp [jsOrInt, ht, floorDiv]
        · simp only [jsOrInt, if_neg ht]
          exact floorDiv_nonneg1000 (by omega)
    simp [applyOp, startInterviewSession] at hu'
    subst hu'
    by_cases ha : strTruthy u.activeSessionId = true
    · have heff := effLimit_nonneg hlim
      simp [ha]
      omega
    · simp [ha]
      exact hnn
  | heartbeat now =>
    simp [applyOp, updateHeartbeat, endInterviewSession] at hu'
    split at hu'
    · split at hu'
      · rename_i h1 h2
        have hdur : 0 ≤ ceilDiv (now - jsOrInt u.currentSessionStartTime 0) 1000 := by
          have hmax : MAX_DURATION_MS = 3600000 := rfl
          exact ceilDiv_nonneg1000 (by omega)
        simp_all
        cases hu'
        refine ⟨?_, fun hle => ?_⟩ <;> simp <;> omega
      · cases hu'
        exact ⟨hnn, fun _ => le_refl _⟩
    · cases hu'
      exact ⟨hnn, fun _ => le_refl _⟩
  | endSession now =>
    by_cases hc : strTruthy u.activeSessionId = true ∧ intTruthy u.currentSessionStartTime = true
    · simp [applyOp, endInterviewSession, hc] at hu'
      rcases hcs : u.currentSessionStartTime with _ | t
      · rw [hcs] at hc
        simp [intTruthy] at hc
      · have ht : t ≠ 0 := by
          have := hc.2
          rw [hcs] at this
          simpa [intTruthy] using this
        have hle := hst t hcs
        simp [opTime] at hle
        have hdur : 0 ≤ ceilDiv (now - jsOrInt u.currentSessionStartTime 0) 1000 := by
          rw [hcs]
          simp only [jsOrInt, if_neg ht]
          exact ceilDiv_nonneg1000 (by omega)
        cases hu'
        refine ⟨?_, fun hle => ?_⟩ <;> simp <;> omega
    · simp [applyOp, endInterviewSession, hc] at hu'
      cases hu'
      exact ⟨hnn, fun _ => le_refl _⟩

/-- Claim C3, witness: ending the locked sample session (42 s used, one
minute elapsed) yields 102 s — non-negative and not below the previous
value. -/
theorem C3_used_step_witness :
    0 ≤ ({ dailyTimeLimitSec := 1800, dailyTimeUsedSec := 102,
           lastResetDate := "2026-10-12", activeSessionId := none,
           currentSessionStartTime := none,
           lastHeartbeatAt := some 1000 } : UserDoc).dailyTimeUsedSec
    ∧ (lockedUser.dailyTimeUsedSec ≤ effLimit lockedUser →
        lockedUser.dailyTimeUsedSec
          ≤ ({ dailyTimeLimitSec := 1800, dailyTimeUsedSec := 102,
               lastResetDate := "2026-10-12", activeSessionId := none,
               currentSessionStartTime := none,
               lastHeartbeatAt := some 1000 } : UserDoc).dailyTimeUsedSec) :=
  C3_used_step lockedUser (BudgetOp.endSession 61000) (by decide) (by decide)
    (by intro t ht; simp [lockedUser] at ht; simp [opTime]; omega)
    (by intro n d hd; cases hd)
    { dailyTimeLimitSec := 1800, dailyTimeUsedSec := 102,
      lastResetDate := "2026-10-12", activeSessionId := none,
      currentSessionStartTime := none, lastHeartbeatAt := some 1000 }
    rfl

/-- The streaming loop over chunks that each consist of exactly one complete
sentence segment keeps an empty carry buffer and emits one event per
chunk. -/
theorem streamLoop_aligned {α : Type} (tts : List Char → α) :
    ∀ chunks : List (List Char),
      (∀ c ∈ chunks, sentenceSplit c = some (c, []) ∧ trimChars c ≠ []) →
      streamLoop tts chunks []
        = (chunks.map (fun c => (trimChars c, tts (trimChars c))), [])
  | [], _ => rfl
  | c :: rest, h => by
    have hc := h c (List.mem_cons_self c rest)
    have hrest := fun x hx => h x (List.mem_cons_of_mem c hx)
    have ih := streamLoop_aligned tts rest hrest
    simp [streamLoop, hc.1, hc.2, ih]

/-- Claim C8, counterexample: a single stream chunk carrying three sentences
produces only two audio-chunk events — the loop extracts at most one sentence
match per arriving chunk, and the trailing flush merges the remaining two
sentences into one event — while the response segments into N = 3 sentences
under the spec\x27s boundary definition. -/
theorem C8_counterexample :
    (audioEvents (fun t : List Char => t) [("One. Two. Three. ").toList]).length = 2
    ∧ (sentencesSpec (List.flatten [("One. Two. Three. ").toList])).length = 3
    ∧ (2 : Nat) ≠ 3 := by
  exact ⟨by decide, by decide, by decide⟩

/-- Claim C8, amended: when each arriving stream chunk completes exactly one
sentence (one full sentence segment per chunk), the loop emits exactly one
audio-chunk event per sentence, in generation order, each pairing the
sentence\x27s trimmed text with the audio synthesized for that same text; the
sequential await of each TTS call is inherent in the sequential loop.  In
general, a chunk carrying several sentence boundaries yields fewer events
than sentences, as the counterexample shows. -/
theorem C8_chunk_aligned_ordering {α : Type} (tts : List Char → α)
    (chunks : List (List Char))
    (h : ∀ c ∈ chunks, sentenceSplit c = some (c, []) ∧ trimChars c ≠ []) :
    audioEvents tts chunks = chunks.map (fun c => (trimChars c, tts (trimChars c))) := by
  simp [audioEvents, streamLoop_aligned tts chunks h, trimChars]

/-- Claim C8, witness: a two-sentence response delivered one sentence per
chunk yields exactly two events, in order, pairing each sentence with its own
synthesized audio. -/
theorem C8_chunk_aligned_ordering_witness :
    audioEvents (fun t : List Char => t) [("Hi. ").toList, ("Go on! ").toList]
      = [("Hi. ").toList, ("Go on! ").toList].map (fun c => (trimChars c, trimChars c)) :=
  C8_chunk_aligned_ordering (fun t : List Char => t)
    [("Hi. ").toList, ("Go on! ").toList] (by decide)

end VerboAI
